import Mathlib

/-!
Shallow embedding of the asynchronous ingestion tracker of
`src/paperless.rs` (scan-server). Pure data is translated directly;
the network is abstracted as explicit response/resolution environments
passed to each function; a Rust `panic!` / `expect` / `unreachable!`
is modelled by the `RunResult.panicked` constructor, a returned
`Result::Err` by `RunResult.errored`.
-/

namespace Paperless

/-- Substring search over character lists; helper for `strContainsSub`. -/
def containsSeq (p : List Char) : List Char → Bool
  | [] => p.isEmpty
  | c :: cs => List.isPrefixOf p (c :: cs) || containsSeq p cs

/-- Rust `str::contains` with a string pattern: substring test. -/
def strContainsSub (s pat : String) : Bool :=
  containsSeq pat.toList s.toList

/-- Rust `str::starts_with` with a string pattern. -/
def strStarts (s pat : String) : Bool :=
  List.isPrefixOf pat.toList s.toList

/-- Outcome of running a fallible Rust computation that may also abort
the process: `ok` is a normal value, `errored` an error value returned
through `Result::Err` (boxed error, modelled by its message), and
`panicked` a process abort raised by `panic!`, `expect` or
`unreachable!` (modelled by the panic message). -/
inductive RunResult (α : Type) where
  | ok (a : α)
  | errored (msg : String)
  | panicked (msg : String)
  deriving Repr, DecidableEq

/-- `type DocumentID = String` (paperless.rs line 275). -/
abbrev DocumentID := String

/-- `type TaskID = Uuid` (paperless.rs line 276); the Uuid is an opaque
identifier with equality, modelled as a natural number. -/
abbrev TaskID := Nat

/-- `struct CustomField { field: usize, value: usize }` (paperless.rs
lines 26-30). -/
structure CustomField where
  field : Nat
  value : Nat
  deriving Repr, DecidableEq

/-- `enum TaskStatus` (paperless.rs lines 296-305): the four known
backend states plus the serde-untagged catch-all `Other` carrying the
raw backend string verbatim. -/
inductive TaskStatus where
  | Pending
  | Started
  | Failure
  | Success
  | Other (raw : String)
  deriving Repr, DecidableEq

/-- `enum TaskResult` (paperless.rs lines 307-317): the derived
terminal outcome of one task. -/
inductive TaskResult where
  | Failure (reason : String)
  | Split
  | Success (doc : DocumentID)
  deriving Repr, DecidableEq

/-- `struct Task` (paperless.rs lines 278-294): the backend-reported
job record. `status`, `file_name`, `message` (serde field `result`) and
`related_document` all use `#[serde(default)]`, so each is optional. -/
structure Task where
  uuid : TaskID
  file_name : Option String
  status : Option TaskStatus
  message : Option String
  related_document : Option DocumentID
  deriving Repr, DecidableEq

/-- `Task::result` (paperless.rs lines 319-347), the status resolver.
`self.status.as_ref()?` yields `ok none` when the status is absent;
the match arms are translated in source order: Started/Pending are
still running, Success with the "splitting complete" marker is Split,
Success with a document id is Success, Failure is Failure with the
(defaulted) message, Success with no document id panics with
"Missing document ID on task", and an unrecognized status panics with
"Unknown processing status: " followed by the raw string. -/
def Task.result (t : Task) : RunResult (Option TaskResult) :=
  let message := t.message.getD ""
  match t.status with
  | none => RunResult.ok none
  | some TaskStatus.Started => RunResult.ok none
  | some TaskStatus.Pending => RunResult.ok none
  | some TaskStatus.Success =>
    if strContainsSub message "splitting complete" then
      RunResult.ok (some TaskResult.Split)
    else
      match t.related_document with
      | some doc => RunResult.ok (some (TaskResult.Success doc))
      | none => RunResult.panicked "Missing document ID on task"
  | some TaskStatus.Failure => RunResult.ok (some (TaskResult.Failure message))
  | some (TaskStatus.Other status) =>
    RunResult.panicked ("Unknown processing status: " ++ status)

/-- `PaperlessClient::fetch_task` (paperless.rs lines 227-247), modelled
at the response boundary: `response` is the JSON list of job records the
backend returned for `GET /api/tasks/?task_id=...` (a transport or HTTP
error happens before this point and is handled by the caller).
`Vec::pop` removes the last element; an empty list yields
`Err("Received empty response to task query")`. -/
def fetch_task (response : List Task) : Except String Task :=
  match response.getLast? with
  | some t => Except.ok t
  | none => Except.error "Received empty response to task query"

/-- Number of iterations of the polling loop of
`PaperlessClient::wait_for_task` (paperless.rs lines 197-207): the loop
body runs while `start.elapsed() < timeout`, and each iteration ends
with `sleep(interval)`, so iteration `k` begins at elapsed time
`k * interval`; the iterations are exactly those with
`k * interval < timeout`, i.e. `ceil(timeout / interval)` of them. -/
def pollTicks (interval timeout : Nat) : Nat :=
  (timeout + interval - 1) / interval

/-- Loop body of `PaperlessClient::wait_for_task` (paperless.rs lines
187-210). `responses n` is the backend answer to the n-th status query
(`Except.error` for a transport/HTTP failure, `Except.ok` the JSON
list); the record is then extracted by `fetch_task` and resolved by
`Task.result`; `?` propagation turns either error into an immediate
`errored` return, a panic inside the resolver propagates, a resolved
outcome returns `ok`, and a still-running record sleeps and loops.
`fetches` counts status queries performed so far; when the fuel (the
remaining loop iterations, see `pollTicks`) is exhausted the function
returns `Err("Timeout while waiting for processing.")` without any
further fetch. -/
def wait_go (responses : Nat → Except String (List Task)) :
    Nat → Nat → RunResult TaskResult × Nat
  | 0, fetches => (RunResult.errored "Timeout while waiting for processing.", fetches)
  | fuel + 1, fetches =>
    match responses fetches with
    | Except.error e => (RunResult.errored e, fetches + 1)
    | Except.ok resp =>
      match fetch_task resp with
      | Except.error e => (RunResult.errored e, fetches + 1)
      | Except.ok task =>
        match task.result with
        | RunResult.panicked m => (RunResult.panicked m, fetches + 1)
        | RunResult.errored m => (RunResult.errored m, fetches + 1)
        | RunResult.ok (some r) => (RunResult.ok r, fetches + 1)
        | RunResult.ok none => wait_go responses fuel (fetches + 1)

/-- `PaperlessClient::wait_for_task` (paperless.rs lines 187-210):
polls every `interval` until `timeout` elapses. Returns the terminal
result together with the total number of status fetches performed. -/
def wait_for_task (responses : Nat → Except String (List Task))
    (interval timeout : Nat) : RunResult TaskResult × Nat :=
  wait_go responses (pollTicks interval timeout) 0

/-- `PaperlessClient::set_document_attributes` (paperless.rs lines
115-132). `patch` is the backend response to the PATCH request for a
given document. Returns the call result together with the number of
network requests issued: an empty custom-field set short-circuits to
`Ok(())` with zero requests, otherwise exactly one PATCH is sent. -/
def set_document_attributes (patch : DocumentID → Except String Unit)
    (custom_fields : List CustomField) (document_id : DocumentID) :
    Except String Unit × Nat :=
  if custom_fields.isEmpty then (Except.ok (), 0)
  else (patch document_id, 1)

/-- `PaperlessClient::find_related_tasks` (paperless.rs lines 212-225):
keeps the tasks whose `file_name` starts with the given filename
prefix, treating an absent file name as no match
(`unwrap_or_default`). -/
def find_related_tasks (tasks : List Task) (fnamePfx : String) : List Task :=
  tasks.filter fun t => (t.file_name.map fun n => strStarts n fnamePfx).getD false

/-- `PaperlessClient::wait_for_split_processing` (paperless.rs lines
172-185), given the already-resolved outcome of `wait_for_task` for one
sibling task (`taskOutcome`): a Success applies the document attributes
(counted as one Metadata Applier invocation in the second component), a
Failure becomes `Err(message)`, and a nested Split hits
`unreachable!("Split of a split should not be possible")`; errors and
panics of the polling phase propagate. -/
def wait_for_split_processing (patch : DocumentID → Except String Unit)
    (custom_fields : List CustomField) (taskOutcome : RunResult TaskResult) :
    RunResult Unit × Nat :=
  match taskOutcome with
  | RunResult.errored e => (RunResult.errored e, 0)
  | RunResult.panicked m => (RunResult.panicked m, 0)
  | RunResult.ok (TaskResult.Success doc) =>
    match (set_document_attributes patch custom_fields doc).fst with
    | Except.ok _ => (RunResult.ok (), 1)
    | Except.error e => (RunResult.errored e, 1)
  | RunResult.ok (TaskResult.Failure msg) => (RunResult.errored msg, 0)
  | RunResult.ok TaskResult.Split =>
    (RunResult.panicked "Split of a split should not be possible", 0)

/-- Rust `Result::or` as used in the reduction at paperless.rs line 166:
`acc.or(result)` keeps `acc` when it is `Ok` and otherwise yields
`result` (applied only to non-panicking outcomes). -/
def resultOr (acc result : RunResult Unit) : RunResult Unit :=
  match acc with
  | RunResult.ok _ => acc
  | _ => result

/-- `Iterator::reduce` with `resultOr` (paperless.rs line 166): `none`
on an empty iterator, otherwise the left fold of the tail over the
head. -/
def reduceResults : List (RunResult Unit) → Option (RunResult Unit)
  | [] => none
  | r :: rs => some (rs.foldl resultOr r)

/-- First panic message among the joined sibling outcomes: a panic
inside a spawned sibling task propagates out of
`JoinSet::join_all`. -/
def firstPanicMsg (rs : List (RunResult Unit)) : Option String :=
  rs.findSome? fun r =>
    match r with
    | RunResult.panicked m => some m
    | _ => none

/-- `PaperlessClient::wait_for_processing` (paperless.rs lines 134-170).
`resolve id` is the outcome of `wait_for_task` for task `id` (root and
siblings alike, all with the same 5 s / 300 s policy); `all_tasks` is
the backend answer to `GET /api/tasks/` used for sibling discovery.
A root Success applies the attributes, a root Failure becomes
`Err(message)`, and a root Split discovers the sibling tasks by
filename-prefix correlation (excluding the root handle itself), runs
`wait_for_split_processing` for each, and reduces the joined results
with `acc.or(result)`; the `expect` on an empty reduction is the panic
`"No child tasks for split upload"`. The second component counts
Metadata Applier (`set_document_attributes`) invocations. -/
def wait_for_processing (resolve : TaskID → RunResult TaskResult)
    (patch : DocumentID → Except String Unit)
    (custom_fields : List CustomField) (all_tasks : List Task)
    (upload_id : TaskID) (fnamePfx : String) : RunResult Unit × Nat :=
  match resolve upload_id with
  | RunResult.errored e => (RunResult.errored e, 0)
  | RunResult.panicked m => (RunResult.panicked m, 0)
  | RunResult.ok (TaskResult.Success doc) =>
    match (set_document_attributes patch custom_fields doc).fst with
    | Except.ok _ => (RunResult.ok (), 1)
    | Except.error e => (RunResult.errored e, 1)
  | RunResult.ok (TaskResult.Failure msg) => (RunResult.errored msg, 0)
  | RunResult.ok TaskResult.Split =>
    let siblings :=
      (find_related_tasks all_tasks fnamePfx).filter fun t => !(t.uuid == upload_id)
    let outs :=
      siblings.map fun t => wait_for_split_processing patch custom_fields (resolve t.uuid)
    let applierCalls := (outs.map Prod.snd).sum
    match firstPanicMsg (outs.map Prod.fst) with
    | some m => (RunResult.panicked m, applierCalls)
    | none =>
      match reduceResults (outs.map Prod.fst) with
      | none => (RunResult.panicked "No child tasks for split upload", applierCalls)
      | some r => (r, applierCalls)

/-- Root job record of the running example: uuid 0, uploaded as
`EpicPrinter-scan.pdf`, reported Success with the splitting marker. -/
def splitRootTask : Task :=
  Task.mk 0 (some "EpicPrinter-scan.pdf") (some TaskStatus.Success)
    (some "PDF splitting complete") none

/-- Sibling job record of the running example: the backend reports the
given uuid and file name (status fields are irrelevant here because the
polling outcome is supplied by a resolution environment). -/
def siblingTask (n : TaskID) (fname : String) : Task :=
  Task.mk n (some fname) (some TaskStatus.Pending) none none

/-- Backend answer to `GET /api/tasks/` in the running example: the
split root plus three sibling tasks created by the split, all sharing
the filename prefix of the upload. -/
def exTasks : List Task :=
  [splitRootTask, siblingTask 1 "EpicPrinter-scan_01.pdf",
    siblingTask 2 "EpicPrinter-scan_02.pdf", siblingTask 3 "EpicPrinter-scan_03.pdf"]

/-- PATCH environment whose requests always succeed. -/
def okPatch : DocumentID → Except String Unit := fun _ => Except.ok ()

/-- Resolution environment of the running example: the root task 0
resolves to Split and the three siblings resolve to the given
outcomes. -/
def resolveThree (r1 r2 r3 : RunResult TaskResult) : TaskID → RunResult TaskResult
  | 0 => RunResult.ok TaskResult.Split
  | 1 => r1
  | 2 => r2
  | 3 => r3
  | _ => RunResult.errored "unexpected task id"

/-- A job record that the resolver classifies as still running. -/
def stillTask : Task :=
  Task.mk 7 none (some TaskStatus.Pending) none none

/-- Sibling discovery of the Split branch (paperless.rs lines 152-155):
`find_related_tasks` filtered by the filename prefix, plus the
`continue` that skips the root job handle. Definitionally equal to the
sibling list computed inside `wait_for_processing`. -/
def discovered_siblings (all_tasks : List Task) (upload_id : TaskID)
    (fnamePfx : String) : List Task :=
  (find_related_tasks all_tasks fnamePfx).filter fun t => !(t.uuid == upload_id)

/-- Sibling resolutions under which `wait_for_split_processing`
completes without a panic: a Success or Failure outcome, or a returned
error such as the poller timeout. Excluded are a panic propagated from
the polling phase and a nested Split (the `unreachable!` arm at
paperless.rs line 183). -/
def noPanicOutcome : RunResult TaskResult → Bool
  | RunResult.panicked _ => false
  | RunResult.ok TaskResult.Split => false
  | _ => true

/-- If every status query yields a record that resolves to still
running, every remaining loop iteration of `wait_go` performs exactly
one fetch and the loop ends in the timeout error. -/
theorem wait_go_stillRunning (responses : Nat → Except String (List Task))
    (h : ∀ n, ∃ resp t, responses n = Except.ok resp ∧
      fetch_task resp = Except.ok t ∧ t.result = RunResult.ok none) :
    ∀ (fuel idx : Nat), wait_go responses fuel idx
      = (RunResult.errored "Timeout while waiting for processing.", idx + fuel) := by
  intro fuel
  induction fuel with
  | zero => intro idx; simp [wait_go]
  | succ n ih =>
    intro idx
    obtain ⟨resp, t, h1, h2, h3⟩ := h idx
    simp [wait_go, h1, h2, h3, ih]
    omega

/-- C2 counterexample: on the concrete record with status Success, no
message and no related document, `Task::result` panics (the `panic!` at
paperless.rs line 339) instead of surfacing a Failure outcome value, so
the resolver does not satisfy "never panics". -/
theorem c2_missing_document_id_counterexample :
    Task.result (Task.mk 5 none (some TaskStatus.Success) none none)
      = RunResult.panicked "Missing document ID on task" := by decide

/-- C2 (amended): for every record with status Success whose message
does not contain the split marker and that carries no document id, the
resolver panics with "Missing document ID on task"; the condition is
never silently dropped and never resolves as a success, but it aborts
rather than returning an Outcome-level error value. -/
theorem c2_missing_document_id_panics (t : Task)
    (hs : t.status = some TaskStatus.Success)
    (hm : strContainsSub (t.message.getD "") "splitting complete" = false)
    (hd : t.related_document = none) :
    t.result = RunResult.panicked "Missing document ID on task" := by
  simp [Task.result, hs, hm, hd]

/-- C2 witness: the amended theorem applied to a concrete record with a
message that lacks the split marker. -/
theorem c2_missing_document_id_panics_witness :
    Task.result (Task.mk 5 none (some TaskStatus.Success) (some "done") none)
      = RunResult.panicked "Missing document ID on task" :=
  c2_missing_document_id_panics
    (Task.mk 5 none (some TaskStatus.Success) (some "done") none)
    rfl (by decide) rfl

/-- C3 counterexample: on the concrete record whose status string is
the unrecognized "RETRYING", `Task::result` panics (the `panic!` at
paperless.rs line 342) instead of returning a fatal error value through
the Failure path, so the resolver does not satisfy "does not panic". -/
theorem c3_unrecognized_status_counterexample :
    Task.result (Task.mk 6 none (some (TaskStatus.Other "RETRYING")) none none)
      = RunResult.panicked "Unknown processing status: RETRYING" := by decide

/-- C3 (amended): for every record whose status tag is the catch-all
`Other s`, the resolver panics with a message carrying `s` verbatim
("Unknown processing status: " followed by `s`); the raw string is
preserved but the condition aborts the process instead of being
surfaced through the same error path as Failure. -/
theorem c3_unrecognized_status_panics (t : Task) (s : String)
    (hs : t.status = some (TaskStatus.Other s)) :
    t.result = RunResult.panicked ("Unknown processing status: " ++ s) := by
  simp [Task.result, hs]

/-- C3 witness: the amended theorem applied to a concrete record with
raw status string "SOMETHING_ELSE". -/
theorem c3_unrecognized_status_panics_witness :
    Task.result (Task.mk 6 none (some (TaskStatus.Other "SOMETHING_ELSE")) none none)
      = RunResult.panicked ("Unknown processing status: " ++ "SOMETHING_ELSE") :=
  c3_unrecognized_status_panics
    (Task.mk 6 none (some (TaskStatus.Other "SOMETHING_ELSE")) none none)
    "SOMETHING_ELSE" rfl

/-- C5: every record with status Success whose (defaulted) message
contains the literal marker "splitting complete" resolves to the Split
outcome, whatever the related-document field holds. -/
theorem c5_split_marker_resolves_split (t : Task)
    (hs : t.status = some TaskStatus.Success)
    (hm : strContainsSub (t.message.getD "") "splitting complete" = true) :
    t.result = RunResult.ok (some TaskResult.Split) := by
  simp [Task.result, hs, hm]

/-- C5 witness: a concrete Success record carrying both the split
marker and a document id still resolves to Split. -/
theorem c5_split_marker_resolves_split_witness :
    Task.result (Task.mk 8 none (some TaskStatus.Success)
        (some "PDF splitting complete") (some "42"))
      = RunResult.ok (some TaskResult.Split) :=
  c5_split_marker_resolves_split
    (Task.mk 8 none (some TaskStatus.Success)
      (some "PDF splitting complete") (some "42"))
    rfl (by decide)

/-- C9: a record whose status is Pending or Started resolves to still
running (no outcome), for every value of the uuid, file name, message
and related-document fields. -/
theorem c9_pending_started_still_running :
    ∀ (uuid : TaskID) (fn msg : Option String) (rel : Option DocumentID),
      (Task.mk uuid fn (some TaskStatus.Pending) msg rel).result = RunResult.ok none ∧
      (Task.mk uuid fn (some TaskStatus.Started) msg rel).result = RunResult.ok none :=
  fun _ _ _ _ => ⟨rfl, rfl⟩

/-- C10: a record whose status field is absent resolves to still
running (never an error), for every value of the other fields; and a
poller whose every status query returns such a record keeps re-polling
until the timeout elapses, ending in the fixed timeout error after
`pollTicks interval timeout` fetches. -/
theorem c10_absent_status_still_running :
    (∀ (uuid : TaskID) (fn msg : Option String) (rel : Option DocumentID),
      (Task.mk uuid fn none msg rel).result = RunResult.ok none)
    ∧ ∀ (uuid : TaskID) (fn msg : Option String) (rel : Option DocumentID)
        (interval timeout : Nat),
      wait_for_task (fun _ => Except.ok [Task.mk uuid fn none msg rel]) interval timeout
        = (RunResult.errored "Timeout while waiting for processing.",
            pollTicks interval timeout) := by
  constructor
  · intro uuid fn msg rel
    rfl
  · intro uuid fn msg rel interval timeout
    have h := wait_go_stillRunning (fun _ => Except.ok [Task.mk uuid fn none msg rel])
      (fun _ => ⟨[Task.mk uuid fn none msg rel], Task.mk uuid fn none msg rel, rfl, rfl, rfl⟩)
      (pollTicks interval timeout) 0
    simpa [wait_for_task] using h

/-- C6: if every status query yields a record that resolves to still
running, `wait_for_task` terminates with the fixed timeout error after
exactly `pollTicks interval timeout` fetches (one per loop iteration,
none after the terminal state), and the elapsed time those fetches
represent, `pollTicks interval timeout * interval`, is at most the
deadline plus one polling interval. -/
theorem c6_poller_timeout (responses : Nat → Except String (List Task))
    (interval timeout : Nat) (hi : 0 < interval)
    (h : ∀ n, ∃ resp t, responses n = Except.ok resp ∧
      fetch_task resp = Except.ok t ∧ t.result = RunResult.ok none) :
    wait_for_task responses interval timeout
      = (RunResult.errored "Timeout while waiting for processing.",
          pollTicks interval timeout)
    ∧ pollTicks interval timeout * interval ≤ timeout + interval := by
  constructor
  · have h0 := wait_go_stillRunning responses h (pollTicks interval timeout) 0
    simpa [wait_for_task] using h0
  · have h2 : (timeout + interval - 1) / interval * interval ≤ timeout + interval - 1 :=
      Nat.div_mul_le_self _ _
    have h3 : pollTicks interval timeout = (timeout + interval - 1) / interval := rfl
    rw [h3]
    omega

/-- C6 witness: with the backend always answering with a still-pending
record, the 5 s / 300 s poller (the values of `wait_for_processing`)
times out after exactly 60 fetches, within the deadline plus one
interval. -/
theorem c6_poller_timeout_witness :
    wait_for_task (fun _ => Except.ok [stillTask]) 5 300
      = (RunResult.errored "Timeout while waiting for processing.", 60)
    ∧ 60 * 5 ≤ 300 + 5 := by
  have h := c6_poller_timeout (fun _ => Except.ok [stillTask]) 5 300 (by decide)
    (fun _ => ⟨[stillTask], stillTask, rfl, rfl, rfl⟩)
  exact ⟨h.1, by decide⟩

/-- C7: `fetch_task` fails with the NotFound-style error exactly when
the backend answered with zero job records; and the poller treats that
error as fatal rather than still pending: with an always-empty response
it stops after the very first fetch carrying that error, instead of
re-polling until the timeout. -/
theorem c7_fetch_task_notfound :
    (∀ (response : List Task),
      fetch_task response = Except.error "Received empty response to task query"
        ↔ response = [])
    ∧ ∀ (interval timeout : Nat), 0 < interval → 0 < timeout →
      wait_for_task (fun _ => Except.ok []) interval timeout
        = (RunResult.errored "Received empty response to task query", 1) := by
  constructor
  · intro response
    cases response with
    | nil => simp [fetch_task]
    | cons a l =>
      cases h : (a :: l).getLast? with
      | some t => simp [fetch_task, h]
      | none => simp at h
  · intro interval timeout hi ht
    obtain ⟨k, hk⟩ : ∃ k, pollTicks interval timeout = k + 1 := by
      have h2 : interval ≤ timeout + interval - 1 := by omega
      have h1 : 1 ≤ (timeout + interval - 1) / interval :=
        (Nat.one_le_div_iff hi).mpr h2
      have h3 : pollTicks interval timeout = (timeout + interval - 1) / interval := rfl
      exact ⟨pollTicks interval timeout - 1, by omega⟩
    simp [wait_for_task, hk, wait_go, fetch_task]

/-- C7 witness: the equivalence applied to the empty response, and the
poller stopping on the first empty response with the 5 s / 300 s
policy. -/
theorem c7_fetch_task_notfound_witness :
    fetch_task [] = Except.error "Received empty response to task query"
    ∧ wait_for_task (fun _ => Except.ok []) 5 300
        = (RunResult.errored "Received empty response to task query", 1) :=
  ⟨(c7_fetch_task_notfound.1 []).mpr rfl,
    c7_fetch_task_notfound.2 5 300 (by decide) (by decide)⟩

/-- C8: for every PATCH environment and document id, the Metadata
Applier with an empty custom-field set returns success with zero
network requests, and with any non-empty set it issues exactly one
request. -/
theorem c8_empty_custom_fields_noop :
    ∀ (patch : DocumentID → Except String Unit) (document_id : DocumentID),
      set_document_attributes patch [] document_id = (Except.ok (), 0)
      ∧ ∀ (f : CustomField) (fs : List CustomField),
        (set_document_attributes patch (f :: fs) document_id).snd = 1 :=
  fun _ _ => ⟨rfl, fun _ _ => rfl⟩

/-- C1 counterexample: with three discovered siblings resolving to
Success, Success and Failure "ocr error", the aggregate computed by
`wait_for_processing` is a success (with two Metadata Applier
invocations), because the reduction `acc.or(result)` keeps the first
Ok; the claim that any sibling failure makes the aggregate a failure is
therefore false on the code. -/
theorem c1_split_reduction_counterexample :
    wait_for_processing
      (resolveThree (RunResult.ok (TaskResult.Success "11"))
        (RunResult.ok (TaskResult.Success "12"))
        (RunResult.ok (TaskResult.Failure "ocr error")))
      okPatch [] exTasks 0 "EpicPrinter-scan"
      = (RunResult.ok (), 2) := by decide

/-- `resultOr acc b` is either `acc` or `b`. -/
theorem resultOr_cases (acc b : RunResult Unit) :
    resultOr acc b = acc ∨ resultOr acc b = b := by
  cases acc <;> simp [resultOr]

/-- The `Result::or` fold yields `Ok` exactly when the accumulator or
some list element is `Ok`. -/
theorem foldOr_ok_iff (l : List (RunResult Unit)) (acc : RunResult Unit) :
    l.foldl resultOr acc = RunResult.ok ()
      ↔ acc = RunResult.ok () ∨ ∃ x ∈ l, x = RunResult.ok () := by
  induction l generalizing acc with
  | nil => simp
  | cons x xs ih =>
    rw [List.foldl_cons, ih]
    cases acc with
    | ok a => cases a; simp [resultOr]
    | errored m => simp [resultOr, List.mem_cons, or_assoc, eq_comm]
    | panicked m => simp [resultOr, List.mem_cons, or_assoc, eq_comm]

/-- The `Result::or` fold yields the accumulator or one of the list
elements. -/
theorem foldOr_mem (l : List (RunResult Unit)) (acc : RunResult Unit) :
    l.foldl resultOr acc ∈ acc :: l := by
  induction l generalizing acc with
  | nil => simp
  | cons x xs ih =>
    rw [List.foldl_cons]
    rcases List.mem_cons.mp (ih (resultOr acc x)) with h1 | h1
    · rcases resultOr_cases acc x with h2 | h2 <;> rw [h1, h2] <;> simp
    · simp [List.mem_cons.mpr (Or.inr h1)]

/-- `findSome?` over outcomes none of which panicked finds no panic
message. -/
theorem firstPanicMsg_eq_none (l : List (RunResult Unit))
    (h : ∀ x ∈ l, ∀ m, x ≠ RunResult.panicked m) : firstPanicMsg l = none := by
  induction l with
  | nil => rfl
  | cons x xs ih =>
    have hxs := ih fun y hy => h y (List.mem_cons_of_mem _ hy)
    cases x with
    | ok a => simpa [firstPanicMsg, List.findSome?_cons] using hxs
    | errored m => simpa [firstPanicMsg, List.findSome?_cons] using hxs
    | panicked m => exact absurd rfl (h _ (List.mem_cons_self _ _) m)

/-- A sibling whose resolution satisfies `noPanicOutcome` yields a
non-panicking `wait_for_split_processing` outcome. -/
theorem split_child_no_panic (patch : DocumentID → Except String Unit)
    (custom_fields : List CustomField) (r : RunResult TaskResult)
    (h : noPanicOutcome r = true) :
    ∀ m, (wait_for_split_processing patch custom_fields r).fst
      ≠ RunResult.panicked m := by
  intro m
  cases r with
  | ok tr =>
    cases tr with
    | Failure m0 => simp [wait_for_split_processing]
    | Split => simp [noPanicOutcome] at h
    | Success d =>
      cases hp : (set_document_attributes patch custom_fields d).fst <;>
        simp [wait_for_split_processing, hp]
  | errored m0 => simp [wait_for_split_processing]
  | panicked m0 => simp [noPanicOutcome] at h

/-- The Metadata Applier invocation count over a sibling list is the
number of siblings whose job resolved to a Success outcome. -/
theorem split_applier_count (patch : DocumentID → Except String Unit)
    (custom_fields : List CustomField) (resolve : TaskID → RunResult TaskResult) :
    ∀ (l : List Task),
      ((l.map fun t => wait_for_split_processing patch custom_fields
          (resolve t.uuid)).map Prod.snd).sum
        = l.countP fun t =>
            match resolve t.uuid with
            | RunResult.ok (TaskResult.Success _) => true
            | _ => false := by
  intro l
  induction l with
  | nil => rfl
  | cons t ts ih =>
    have hsnd : (wait_for_split_processing patch custom_fields (resolve t.uuid)).snd
        = if (match resolve t.uuid with
            | RunResult.ok (TaskResult.Success _) => true
            | _ => false) = true then 1 else 0 := by
      cases hr : resolve t.uuid with
      | ok tr =>
        cases tr with
        | Failure m0 => simp [wait_for_split_processing]
        | Split => simp [wait_for_split_processing]
        | Success d =>
          cases hp : (set_document_attributes patch custom_fields d).fst <;>
            simp [wait_for_split_processing, hp]
      | errored m0 => simp [wait_for_split_processing]
      | panicked m0 => simp [wait_for_split_processing]
    rw [List.map_cons, List.map_cons, List.sum_cons, ih, List.countP_cons, hsnd]
    cases hm : (match resolve t.uuid with
        | RunResult.ok (TaskResult.Success _) => true
        | _ => false) <;> simp [hm] <;> omega

/-- When the root resolves to Split and the discovered sibling list is
`s :: ss` with no sibling outcome panicking, `wait_for_processing`
returns the `Result::or` fold of the sibling outcomes paired with the
summed Metadata Applier invocation counts. -/
theorem wfp_split_eq (resolve : TaskID → RunResult TaskResult)
    (patch : DocumentID → Except String Unit) (custom_fields : List CustomField)
    (all_tasks : List Task) (upload_id : TaskID) (fnamePfx : String)
    (hroot : resolve upload_id = RunResult.ok TaskResult.Split)
    (s : Task) (ss : List Task)
    (hsibs : discovered_siblings all_tasks upload_id fnamePfx = s :: ss)
    (hpan : firstPanicMsg ((((s :: ss).map fun t =>
        wait_for_split_processing patch custom_fields (resolve t.uuid))).map
          Prod.fst) = none) :
    wait_for_processing resolve patch custom_fields all_tasks upload_id fnamePfx
      = (((ss.map fun t =>
            (wait_for_split_processing patch custom_fields (resolve t.uuid)).fst)).foldl
              resultOr
              (wait_for_split_processing patch custom_fields (resolve s.uuid)).fst,
          (((s :: ss).map fun t =>
            wait_for_split_processing patch custom_fields (resolve t.uuid)).map
              Prod.snd).sum) := by
  have hs2 : (find_related_tasks all_tasks fnamePfx).filter
      (fun t => !(t.uuid == upload_id)) = s :: ss := hsibs
  simp only [List.map_cons, List.map_map, Function.comp] at hpan
  simp only [wait_for_processing, hroot, hs2, List.map_cons, List.map_map,
    Function.comp]
  rw [hpan]
  simp only [reduceResults, Function.comp_def]

/-- C1 (amended): for every set of sibling jobs discovered after a
Split outcome that is non-empty and whose members all complete their
tracking without panicking (each resolves to a Success or Failure
outcome or to a returned error such as the poller timeout), the Split
Coordinator reduces the joined results with `Result::or`
(paperless.rs line 166), so that: the aggregate is a success if and
only if at least one sibling's tracking succeeded; the aggregate is
always one of the siblings' results (in particular, when every sibling
failed the aggregate is one of those failures — which one survives
depends on join order); and the Metadata Applier is invoked exactly
once per sibling whose job resolved to Success. Consequently the
original any-failure-wins reduction does not hold: three siblings
resolving Success, Success, Failure aggregate to a success. -/
theorem c1_split_reduction_or_semantics (resolve : TaskID → RunResult TaskResult)
    (patch : DocumentID → Except String Unit) (custom_fields : List CustomField)
    (all_tasks : List Task) (upload_id : TaskID) (fnamePfx : String)
    (hroot : resolve upload_id = RunResult.ok TaskResult.Split)
    (hne : discovered_siblings all_tasks upload_id fnamePfx ≠ [])
    (hnp : ∀ t ∈ discovered_siblings all_tasks upload_id fnamePfx,
      noPanicOutcome (resolve t.uuid) = true) :
    ((wait_for_processing resolve patch custom_fields all_tasks upload_id
        fnamePfx).fst = RunResult.ok ()
      ↔ ∃ t ∈ discovered_siblings all_tasks upload_id fnamePfx,
          (wait_for_split_processing patch custom_fields (resolve t.uuid)).fst
            = RunResult.ok ())
    ∧ (∃ t ∈ discovered_siblings all_tasks upload_id fnamePfx,
        (wait_for_processing resolve patch custom_fields all_tasks upload_id
          fnamePfx).fst
          = (wait_for_split_processing patch custom_fields (resolve t.uuid)).fst)
    ∧ (wait_for_processing resolve patch custom_fields all_tasks upload_id
        fnamePfx).snd
        = (discovered_siblings all_tasks upload_id fnamePfx).countP fun t =>
            match resolve t.uuid with
            | RunResult.ok (TaskResult.Success _) => true
            | _ => false := by
  obtain ⟨s, ss, hsibs⟩ := List.exists_cons_of_ne_nil hne
  have hpan : firstPanicMsg ((((s :: ss).map fun t =>
      wait_for_split_processing patch custom_fields (resolve t.uuid))).map
        Prod.fst) = none := by
    apply firstPanicMsg_eq_none
    intro x hx m
    rw [List.map_map, List.mem_map] at hx
    obtain ⟨t, ht, rfl⟩ := hx
    exact split_child_no_panic patch custom_fields (resolve t.uuid)
      (hnp t (hsibs ▸ ht)) m
  have heq := wfp_split_eq resolve patch custom_fields all_tasks upload_id
    fnamePfx hroot s ss hsibs hpan
  refine ⟨?_, ?_, ?_⟩
  · rw [heq]
    simp only [foldOr_ok_iff, List.mem_map, hsibs]
    constructor
    · rintro (h1 | ⟨x, ⟨t, ht, rfl⟩, h2⟩)
      · exact ⟨s, List.mem_cons_self _ _, h1⟩
      · exact ⟨t, List.mem_cons_of_mem _ ht, h2⟩
    · rintro ⟨t, ht, h2⟩
      rcases List.mem_cons.mp ht with rfl | ht2
      · exact Or.inl h2
      · exact Or.inr ⟨_, ⟨t, ht2, rfl⟩, h2⟩
  · rw [heq]
    rcases List.mem_cons.mp (foldOr_mem ((ss.map fun t =>
        (wait_for_split_processing patch custom_fields (resolve t.uuid)).fst))
        ((wait_for_split_processing patch custom_fields (resolve s.uuid)).fst))
      with h1 | h1
    · exact ⟨s, by rw [hsibs]; exact List.mem_cons_self _ _, h1⟩
    · rw [List.mem_map] at h1
      obtain ⟨t, ht, h2⟩ := h1
      exact ⟨t, hsibs ▸ List.mem_cons_of_mem _ ht, h2.symm⟩
  · rw [heq, hsibs]
    exact split_applier_count patch custom_fields resolve (s :: ss)

/-- C1 witness: the amended theorem applied to the concrete
Success, Success, Failure scenario on the discovered sibling set of
the running example: the aggregate is a success if and only if some
sibling succeeded (which holds here), and the applier is invoked once
per Success-resolved sibling (twice). -/
theorem c1_split_reduction_or_semantics_witness :
    ((wait_for_processing
        (resolveThree (RunResult.ok (TaskResult.Success "11"))
          (RunResult.ok (TaskResult.Success "12"))
          (RunResult.ok (TaskResult.Failure "ocr error")))
        okPatch [] exTasks 0 "EpicPrinter-scan").fst = RunResult.ok ()
      ↔ ∃ t ∈ discovered_siblings exTasks 0 "EpicPrinter-scan",
          (wait_for_split_processing okPatch []
            ((resolveThree (RunResult.ok (TaskResult.Success "11"))
              (RunResult.ok (TaskResult.Success "12"))
              (RunResult.ok (TaskResult.Failure "ocr error"))) t.uuid)).fst
            = RunResult.ok ())
    ∧ (wait_for_processing
        (resolveThree (RunResult.ok (TaskResult.Success "11"))
          (RunResult.ok (TaskResult.Success "12"))
          (RunResult.ok (TaskResult.Failure "ocr error")))
        okPatch [] exTasks 0 "EpicPrinter-scan").snd
        = (discovered_siblings exTasks 0 "EpicPrinter-scan").countP fun t =>
            match (resolveThree (RunResult.ok (TaskResult.Success "11"))
              (RunResult.ok (TaskResult.Success "12"))
              (RunResult.ok (TaskResult.Failure "ocr error"))) t.uuid with
            | RunResult.ok (TaskResult.Success _) => true
            | _ => false := by
  have h := c1_split_reduction_or_semantics
    (resolveThree (RunResult.ok (TaskResult.Success "11"))
      (RunResult.ok (TaskResult.Success "12"))
      (RunResult.ok (TaskResult.Failure "ocr error")))
    okPatch [] exTasks 0 "EpicPrinter-scan" rfl (by decide) (by decide)
  exact ⟨h.1, h.2.2⟩

/-- C4 counterexample: when the root resolves to Split and the backend
task list holds only the root itself (so sibling discovery after
excluding the root yields nothing), `wait_for_processing` panics with
"No child tasks for split upload" (the `expect` at paperless.rs line
167) instead of returning a regular error value, so the claim that the
process does not abort is false on the code. -/
theorem c4_zero_siblings_counterexample :
    wait_for_processing
      (resolveThree (RunResult.ok TaskResult.Split) (RunResult.ok TaskResult.Split)
        (RunResult.ok TaskResult.Split))
      okPatch [] [splitRootTask] 0 "EpicPrinter-scan"
      = (RunResult.panicked "No child tasks for split upload", 0) := by decide

/-- C4 (amended): whenever the root job resolves to Split and sibling
discovery (prefix filtering plus exclusion of the root handle) yields
zero siblings, the Split Coordinator panics with "No child tasks for
split upload" — an abort through `expect`, not a regular error
value. -/
theorem c4_zero_siblings_panics (resolve : TaskID → RunResult TaskResult)
    (patch : DocumentID → Except String Unit) (custom_fields : List CustomField)
    (all_tasks : List Task) (upload_id : TaskID) (fnamePfx : String)
    (hroot : resolve upload_id = RunResult.ok TaskResult.Split)
    (hsib : (find_related_tasks all_tasks fnamePfx).filter
        (fun t => !(t.uuid == upload_id)) = []) :
    wait_for_processing resolve patch custom_fields all_tasks upload_id fnamePfx
      = (RunResult.panicked "No child tasks for split upload", 0) := by
  simp [wait_for_processing, hroot, hsib, firstPanicMsg, reduceResults]

/-- C4 witness: the amended theorem applied to the concrete
configuration where the task list holds only the split root. -/
theorem c4_zero_siblings_panics_witness :
    wait_for_processing
      (resolveThree (RunResult.ok TaskResult.Split) (RunResult.ok TaskResult.Split)
        (RunResult.ok TaskResult.Split))
      okPatch [CustomField.mk 1 2] [splitRootTask] 0 "EpicPrinter-scan"
      = (RunResult.panicked "No child tasks for split upload", 0) :=
  c4_zero_siblings_panics
    (resolveThree (RunResult.ok TaskResult.Split) (RunResult.ok TaskResult.Split)
      (RunResult.ok TaskResult.Split))
    okPatch [CustomField.mk 1 2] [splitRootTask] 0 "EpicPrinter-scan"
    rfl (by decide)

end Paperless
